import Mathlib

/-!
Shallow embedding of the capstone Bayesian-optimisation notebook (the TuRBO
notebook): the `TurboState` dataclass and `update_state`, the `generate_batch`
candidate-generation routine, the `ExactGPModel` wrapper, `next_query_via_TurBO`
(whose hyper-parameter training loop is commented out in the source), and the
per-function driver-loop body.

Conventions of the embedding:
* Python floats are idealised as rationals (`ℚ`); `math.fabs` is `|·|`,
  `1e-3` is `1/1000`.  `torch.isfinite` is identically true on `ℚ`, which has
  no `inf`/`nan`.
* Operations that raise in Python (`max` of an empty sequence, tensor reduction
  over an empty tensor, out-of-range indexing, the `assert` statements, and
  `return X_next` with `X_next` unbound) are modelled with `Option` / `Except`.
* Library randomness (the Sobol engine, `torch.rand`, `torch.randint`, and the
  GP posterior `sample()`) is passed in explicitly as an oracle record
  `TorchLib`; a fixed oracle is a fixed RNG state.  The record also carries the
  floating-point `pow` kernel used at the fractional exponent
  `1.0 / len(weights)` (an exact d-th root is irrational in general, so it
  cannot be a rational-valued closed form); no theorem below depends on the
  values this kernel returns.
-/

attribute [local semireducible] Rat.add Rat.mul Rat.sub Rat.inv

/-- Ways an embedded run can fail, mirroring the Python exceptions:
`AssertionError` from the repository's own `assert` lines, `UnboundLocalError`
from `return X_next` when the Thompson-sampling branch was skipped, and
library-raised errors (empty-tensor reductions, out-of-range indexing). -/
inductive PyError where
  | assertionError
  | unboundLocal
  | libraryError
deriving DecidableEq

/-- `math.fabs`: absolute value on the rational idealisation of floats,
written as a conditional so that concrete instances evaluate in the kernel. -/
def pyAbs (q : ℚ) : ℚ := if q < 0 then -q else q

/-- `math.ceil` on a rational, computed from the reduced numerator and
denominator with floor division (the denominator is positive). -/
def ratCeil (q : ℚ) : ℤ := Int.fdiv (q.num + q.den - 1) q.den

/-- Python `max(l)` over a list: `none` on the empty list (Python raises). -/
def pyMax : List ℚ → Option ℚ
  | [] => none
  | a :: as => some (as.foldl max a)

/-- Python `min(l)` over a list: `none` on the empty list (Python raises). -/
def pyMin : List ℚ → Option ℚ
  | [] => none
  | a :: as => some (as.foldl min a)

/-- Auxiliary loop for `pyArgmax`: scan the remaining list, keeping the index
and value of the best element seen so far; ties keep the earlier index, as
`torch.argmax` returns the first maximal index. -/
def argmaxAux : List ℚ → ℕ → ℕ → ℚ → ℕ
  | [], _, best, _ => best
  | x :: xs, i, best, bv =>
    if bv < x then argmaxAux xs (i + 1) i x else argmaxAux xs (i + 1) best bv

/-- `torch.argmax` over a vector: index of the first maximal entry
(0 on the empty list, where torch raises instead; callers guard emptiness). -/
def pyArgmax : List ℚ → ℕ
  | [] => 0
  | x :: xs => argmaxAux xs 1 0 x

/-- The `TurboState` dataclass of the notebook. -/
structure TurboState where
  dim : ℕ
  batch_size : ℕ
  length : ℚ
  length_min : ℚ
  length_max : ℚ
  failure_counter : ℕ
  failure_tolerance : ℕ
  success_counter : ℕ
  success_tolerance : ℕ
  best_value : ℚ
  restart_triggered : Bool
deriving DecidableEq

/-- Construction of a `TurboState` with the dataclass defaults
(`length = 0.8`, `length_min = 0.5 ** 7`, `length_max = 1.6`,
`success_tolerance = 3`, counters zero, flag clear) and the `__post_init__`
computation `failure_tolerance = ceil(max(4.0 / batch_size, dim / batch_size))`.
The driver always passes `best_value` explicitly, so the `-inf` default of the
dataclass never arises in the repository's runs. -/
def mkTurboState (dim batch_size : ℕ) (best_value : ℚ) : TurboState :=
  { dim := dim
    batch_size := batch_size
    length := 4/5
    length_min := 1/128
    length_max := 8/5
    failure_counter := 0
    failure_tolerance := (ratCeil (max ((4 : ℚ) / batch_size) ((dim : ℚ) / batch_size))).toNat
    success_counter := 0
    success_tolerance := 3
    best_value := best_value
    restart_triggered := false }

/-- `update_state(state, Y_next)` from the notebook: count a success or a
failure against the relative tolerance `1e-3 * fabs(best_value)`, expand the
region when the success counter reaches its tolerance, halve it when the
failure counter reaches its tolerance, fold the new observations into
`best_value`, and raise the restart flag when the region has shrunk below
`length_min`.  `none` models the `ValueError` of `max(Y_next)` on an empty
batch. -/
def update_state (state : TurboState) (Y_next : List ℚ) : Option TurboState :=
  match pyMax Y_next with
  | none => none
  | some m =>
    let s1 :=
      if state.best_value + (1/1000) * pyAbs state.best_value < m then
        { state with success_counter := state.success_counter + 1, failure_counter := 0 }
      else
        { state with success_counter := 0, failure_counter := state.failure_counter + 1 }
    let s2 :=
      if s1.success_counter = s1.success_tolerance then
        { s1 with length := min (2 * s1.length) s1.length_max, success_counter := 0 }
      else if s1.failure_counter = s1.failure_tolerance then
        { s1 with length := s1.length / 2, failure_counter := 0 }
      else s1
    let s3 := { s2 with best_value := max s2.best_value m }
    some (if s3.length < s3.length_min then { s3 with restart_triggered := true } else s3)

/-- Iterated `update_state` over a sequence of observation batches, as the
notebook's week-by-week usage chains the state from query to query. -/
def run_updates (state : TurboState) : List (List ℚ) → Option TurboState
  | [] => some state
  | Y :: Ys =>
    match update_state state Y with
    | none => none
    | some s' => run_updates s' Ys

/-- Does `a` match the first characters of `hay`? -/
def strMatchAt : List Char → List Char → Bool
  | [], _ => true
  | _ :: _, [] => false
  | a :: as, b :: bs => a == b && strMatchAt as bs

/-- Does `needle` occur contiguously anywhere in `hay`? -/
def strInAux (needle : List Char) : List Char → Bool
  | [] => strMatchAt needle []
  | b :: bs => strMatchAt needle (b :: bs) || strInAux needle bs

/-- Python's `needle in hay` on two strings: substring containment.  This is
the semantics of the notebook's `assert acqf in ("ts")`, since `("ts")` is a
parenthesised string, not a tuple. -/
def pyStrIn (needle hay : String) : Bool := strInAux needle.toList hay.toList

/-- `torch.isfinite` on the rational idealisation of floats: identically true,
as `ℚ` has no `inf` or `nan` values. -/
def torchIsfinite (_ : ℚ) : Bool := true

/-- `torch.clamp(x, 0.0, 1.0)`. -/
def clamp01 (x : ℚ) : ℚ := max 0 (min x 1)

/-- Sum of a list (`torch` reduction). -/
def listSum (l : List ℚ) : ℚ := l.foldl (· + ·) 0

/-- Product of a list (`torch.prod`). -/
def listProd (l : List ℚ) : ℚ := l.foldl (· * ·) 1

/-- The data of the notebook's `ExactGPModel` read by `generate_batch`: the
per-dimension lengthscales of the ARD RBF kernel
(`model.covar_module.base_kernel.lengthscale`). -/
structure GPModel where
  lengthscale : List ℚ
deriving DecidableEq

/-- Modelled from the spec: the fresh GPyTorch kernel initialisation that the
repository never trains ("disabled hyperparameter training loop").  The
library's default initial lengthscale (`softplus(0)`) is a library constant
not present in this repository's source and irrational in general; it is
represented by a fixed positive rational.  No theorem below depends on this
value. -/
def gpytorchInitLengthscale : ℚ := 1

/-- The freshly constructed `ExactGPModel(train_x, train_y, likelihood)`:
an ARD RBF kernel with `ard_num_dims = train_x.shape[1]`, one initial
lengthscale per input dimension. -/
def ExactGPModel.mkFresh (train_x : List (List ℚ)) (_train_y : List ℚ) : GPModel :=
  { lengthscale := List.replicate (train_x.headD []).length gpytorchInitLengthscale }

/-- Oracle for the wrapped torch/gpytorch numeric kernels used inside
`generate_batch`: the scrambled Sobol engine draws (`sobol.draw`), the
uniform draws of `torch.rand`, the draws of `torch.randint(0, dim - 1, ...)`,
the GP posterior sample over the candidate set
(`model(X_cand).sample()`, folding the model's influence and the RNG state
together), and the floating-point `pow` kernel at the fractional exponent
`1.0 / len(weights)` (an exact d-th root is irrational in general).  A fixed
`TorchLib` value is a fixed RNG state. -/
structure TorchLib where
  sobol : ℕ → ℕ → ℚ
  rand : ℕ → ℕ → ℚ
  randint : ℕ → ℕ
  gpSample : GPModel → List (List ℚ) → ℕ → ℚ
  powRoot : ℚ → ℚ → ℚ

/-- `n_candidates = min(5000, max(2000, 200 * X.shape[-1]))`, the value used
when the caller leaves the parameter at its `None` default. -/
def nCandidates (dim : ℕ) : ℕ := min 5000 (max 2000 (200 * dim))

/-- `x_center = X[Y.argmax(), :]`: the row of `X` at the index of the best
observation. -/
def x_center (X : List (List ℚ)) (Y : List ℚ) : List ℚ := X.getD (pyArgmax Y) []

/-- The lengthscale normalisation of `generate_batch`:
`weights / weights.mean()`, then division by
`prod(weights.pow(1.0 / len(weights)))` (the `pow` is the oracle's float
kernel). -/
def normWeights (model : GPModel) (lib : TorchLib) : List ℚ :=
  let w := model.lengthscale
  let m := listSum w / (w.length : ℚ)
  let w1 := w.map (· / m)
  let geo := listProd (w1.map (fun x => lib.powRoot x (1 / (w1.length : ℚ))))
  w1.map (· / geo)

/-- `tr_lb = clamp(x_center - weights * state.length / 2.0, 0.0, 1.0)`,
read coordinatewise. -/
def tr_lb (state : TurboState) (model : GPModel) (X : List (List ℚ)) (Y : List ℚ)
    (lib : TorchLib) (j : ℕ) : ℚ :=
  clamp01 ((x_center X Y).getD j 0 - (normWeights model lib).getD j 0 * state.length / 2)

/-- `tr_ub = clamp(x_center + weights * state.length / 2.0, 0.0, 1.0)`,
read coordinatewise. -/
def tr_ub (state : TurboState) (model : GPModel) (X : List (List ℚ)) (Y : List ℚ)
    (lib : TorchLib) (j : ℕ) : ℚ :=
  clamp01 ((x_center X Y).getD j 0 + (normWeights model lib).getD j 0 * state.length / 2)

/-- `prob_perturb = min(20.0 / dim, 1.0)`. -/
def prob_perturb (dim : ℕ) : ℚ := min (20 / (dim : ℚ)) 1

/-- `pert = tr_lb + (tr_ub - tr_lb) * sobol.draw(n_candidates)`, entry `(i, j)`. -/
def pert (state : TurboState) (model : GPModel) (X : List (List ℚ)) (Y : List ℚ)
    (lib : TorchLib) (i j : ℕ) : ℚ :=
  tr_lb state model X Y lib j +
    (tr_ub state model X Y lib j - tr_lb state model X Y lib j) * lib.sobol i j

/-- Entry `(i, j)` of the raw perturbation mask
`torch.rand(n_candidates, dim) <= prob_perturb`. -/
def maskRaw (lib : TorchLib) (dim : ℕ) (i j : ℕ) : Bool :=
  decide (lib.rand i j ≤ prob_perturb dim)

/-- Is row `i` of the raw mask all-false (`mask.sum(dim=1) == 0`)? -/
def maskRowEmpty (lib : TorchLib) (dim : ℕ) (i : ℕ) : Bool :=
  (List.range dim).all fun j => ! maskRaw lib dim i j

/-- `ind = torch.where(mask.sum(dim=1) == 0)[0]`: the (sorted) indices of the
all-false mask rows. -/
def maskEmptyRowIdx (lib : TorchLib) (dim n : ℕ) : List ℕ :=
  (List.range n).filter fun i => maskRowEmpty lib dim i

/-- Entry `(i, j)` of the mask after
`mask[ind, torch.randint(0, dim - 1, size=(len(ind),))] = 1`: the `k`-th
all-false row receives a single `1` at the column given by the `k`-th
`randint` draw. -/
def maskFix (lib : TorchLib) (dim n : ℕ) (i j : ℕ) : Bool :=
  if maskRaw lib dim i j then true
  else if maskRowEmpty lib dim i then j == lib.randint ((maskEmptyRowIdx lib dim n).indexOf i)
  else false

/-- Entry `(i, j)` of the candidate matrix
`X_cand = x_center.expand(n_candidates, dim).clone(); X_cand[mask] = pert[mask]`. -/
def candEntry (state : TurboState) (model : GPModel) (X : List (List ℚ)) (Y : List ℚ)
    (lib : TorchLib) (n : ℕ) (i j : ℕ) : ℚ :=
  if maskFix lib ((X.headD []).length) n i j then pert state model X Y lib i j
  else (x_center X Y).getD j 0

/-- Row `i` of the candidate matrix. -/
def candRow (state : TurboState) (model : GPModel) (X : List (List ℚ)) (Y : List ℚ)
    (lib : TorchLib) (n : ℕ) (i : ℕ) : List ℚ :=
  (List.range ((X.headD []).length)).map fun j => candEntry state model X Y lib n i j

/-- The candidate matrix `X_cand`, `n` rows of `dim = X.shape[-1]` entries. -/
def candidates (state : TurboState) (model : GPModel) (X : List (List ℚ)) (Y : List ℚ)
    (lib : TorchLib) (n : ℕ) : List (List ℚ) :=
  (List.range n).map fun i => candRow state model X Y lib n i

/-- `posterior_sample = model(X_cand).sample()`: the posterior sample over the
`n` candidate points, drawn through the oracle. -/
def posteriorSample (state : TurboState) (model : GPModel) (X : List (List ℚ)) (Y : List ℚ)
    (lib : TorchLib) (n : ℕ) : List ℚ :=
  (List.range n).map (lib.gpSample model (candidates state model X Y lib n))

/-- `X_next = X_cand[torch.argmax(posterior_sample)]`. -/
def chooseCandidate (state : TurboState) (model : GPModel) (X : List (List ℚ)) (Y : List ℚ)
    (lib : TorchLib) (n : ℕ) : List ℚ :=
  (candidates state model X Y lib n).getD
    (pyArgmax (posteriorSample state model X Y lib n)) []

/-- `generate_batch(state, model, X, Y, batch_size=1, n_candidates=None, ...,
acqf="ts")` from the notebook.  The two `assert` statements come first; an
empty `X` makes `X.min()` raise; an empty `Y` makes `Y.argmax()` raise;
`Y.argmax()` not indexing into `X` raises; when `acqf` passes the (substring)
assertion but is not equal to `"ts"`, the Thompson-sampling branch is skipped
and `return X_next` raises `UnboundLocalError`. -/
def generate_batch (state : TurboState) (model : GPModel) (X : List (List ℚ)) (Y : List ℚ)
    (lib : TorchLib) (acqf : String := "ts") (n_candidates : Option ℕ := none) :
    Except PyError (List ℚ) :=
  if pyStrIn acqf "ts" = false then .error .assertionError
  else
    match pyMin X.flatten, pyMax X.flatten with
    | some xmin, some xmax =>
      if ¬ (0 ≤ xmin ∧ xmax ≤ 1 ∧ Y.all torchIsfinite = true) then .error .assertionError
      else if Y.isEmpty then .error .libraryError
      else if X.length ≤ pyArgmax Y then .error .libraryError
      else if acqf == "ts" then
        .ok (chooseCandidate state model X Y lib
          (n_candidates.getD (nCandidates ((X.headD []).length))))
      else .error .unboundLocal
    | _, _ => .error .libraryError

/-- `next_query_via_TurBO(train_x, train_y, turbo_state)`: construct the model
and likelihood, put them in training mode, build the Adam optimizer and the
marginal log-likelihood — and run zero optimisation steps, because the whole
hyper-parameter training loop is commented out in the source — then call
`generate_batch` on the fresh model with all remaining arguments at their
defaults (batch size 1, `n_candidates = None`, `acqf = "ts"`). -/
def next_query_via_TurBO (train_x : List (List ℚ)) (train_y : List ℚ)
    (turbo_state : TurboState) (lib : TorchLib) : Except PyError (List ℚ) :=
  let model := ExactGPModel.mkFresh train_x train_y
  generate_batch turbo_state model train_x train_y lib

/-- The body of the driver loop for one function index: load the two initial
data files and the CSV-derived new points (modelled as already-parsed lists,
the file-reading boundary of the embedding), build the `TurboState` with
`best_value = torch.max(train_y)` — taken from the first file only, before
the concatenation — then concatenate all three data sources and ask
`next_query_via_TurBO` for the next query. -/
def driver_run (dim : ℕ) (train_x train_x_2 x_new : List (List ℚ))
    (train_y train_y_2 y_new : List ℚ) (lib : TorchLib) :
    Option (TurboState × Except PyError (List ℚ)) :=
  match pyMax train_y with
  | none => none
  | some m =>
    let state := mkTurboState dim 1 m
    let X := train_x ++ train_x_2 ++ x_new
    let Yall := train_y ++ train_y_2 ++ y_new
    some (state, next_query_via_TurBO X Yall state lib)

/-! ### Concrete fixtures used by counterexamples and witnesses -/

/-- An oracle whose streams are identically zero and whose float `pow` kernel
is the identity in its first argument: the simplest fixed RNG state. -/
def libZero : TorchLib :=
  { sobol := fun _ _ => 0
    rand := fun _ _ => 0
    randint := fun _ => 0
    gpSample := fun _ _ _ => 0
    powRoot := fun x _ => x }

/-- A fresh two-dimensional state with `best_value = 0`. -/
def st2 : TurboState := mkTurboState 2 1 0

/-- `st2` after one improving batch `[1]`: the success counter ticks to `1`
and the best value becomes `1`. -/
def st2After : TurboState := { st2 with success_counter := 1, best_value := 1 }

/-- `st2` with the restart flag already raised. -/
def st2Restart : TurboState := { st2 with restart_triggered := true }

/-- `st2Restart` after one improving batch `[1]`. -/
def st2RestartAfter : TurboState := { st2Restart with success_counter := 1, best_value := 1 }

/-- A reachable four-dimensional state on the verge of shrinking: the region
has been halved down to `1/80` (still within `[length_min, length_max]`) and
three failures are on record against a tolerance of four. -/
def cexShrink : TurboState := { mkTurboState 4 1 0 with length := 1/80, failure_counter := 3 }

/-- A six-dimensional state two successes into a streak, one success away
from the expansion threshold `success_tolerance = 3`. -/
def cexStreak : TurboState := { mkTurboState 6 1 0 with success_counter := 2 }

example : (mkTurboState 6 1 0).failure_tolerance = 6 := by decide
example : (mkTurboState 6 1 0).length_min = 1/128 := by decide
example :
    (update_state (mkTurboState 6 1 0) [1]).map TurboState.best_value = some 1 := by decide
example : ratCeil (5/2) = 3 := by decide
example : ratCeil (-(3/2)) = -1 := by decide
example : pyStrIn "ts" "ts" = true := by decide
example : pyStrIn "t" "ts" = true := by decide
example : pyStrIn "s" "ts" = true := by decide
example : pyStrIn "" "ts" = true := by decide
example : pyStrIn "ei" "ts" = false := by decide

/-! ### Helper lemmas about `update_state` -/

/-- Unfolding `update_state` on a batch with a known maximum. -/
lemma update_state_eq_some (s : TurboState) (Y : List ℚ) (m : ℚ) (s' : TurboState)
    (hm : pyMax Y = some m) (h : update_state s Y = some s') :
    s' =
      (fun s3 => if s3.length < s3.length_min then { s3 with restart_triggered := true } else s3)
      ((fun s2 => { s2 with best_value := max s2.best_value m })
        ((fun s1 =>
          if s1.success_counter = s1.success_tolerance then
            { s1 with length := min (2 * s1.length) s1.length_max, success_counter := 0 }
          else if s1.failure_counter = s1.failure_tolerance then
            { s1 with length := s1.length / 2, failure_counter := 0 }
          else s1)
          (if s.best_value + (1/1000) * pyAbs s.best_value < m then
            { s with success_counter := s.success_counter + 1, failure_counter := 0 }
          else
            { s with success_counter := 0, failure_counter := s.failure_counter + 1 }))) := by
  unfold update_state at h
  rw [hm] at h
  simpa using h.symm

/-- `update_state` diverges (returns `none`) only on an empty batch. -/
lemma update_state_ne_none (s : TurboState) (Y : List ℚ) (s' : TurboState)
    (h : update_state s Y = some s') : ∃ m, pyMax Y = some m := by
  cases hm : pyMax Y with
  | none =>
    unfold update_state at h
    rw [hm] at h
    exact absurd h (by simp)
  | some m => exact ⟨m, rfl⟩

/-- The new `best_value` is the max of the old one and the batch maximum. -/
lemma update_state_best_value_eq (s : TurboState) (Y : List ℚ) (m : ℚ) (s' : TurboState)
    (hm : pyMax Y = some m) (h : update_state s Y = some s') :
    s'.best_value = max s.best_value m := by
  rw [update_state_eq_some s Y m s' hm h]
  dsimp only
  split_ifs <;> rfl

/-- One `update_state` step never decreases `best_value`. -/
lemma update_state_best_value_mono (s : TurboState) (Y : List ℚ) (s' : TurboState)
    (h : update_state s Y = some s') : s.best_value ≤ s'.best_value := by
  obtain ⟨m, hm⟩ := update_state_ne_none s Y s' h
  rw [update_state_best_value_eq s Y m s' hm h]
  exact le_max_left _ _

/-- A chain of `update_state` steps never decreases `best_value`. -/
lemma run_updates_best_value_mono (Ys : List (List ℚ)) :
    ∀ (s s' : TurboState), run_updates s Ys = some s' → s.best_value ≤ s'.best_value := by
  induction Ys with
  | nil => intro s s' h; simp only [run_updates, Option.some.injEq] at h; rw [h]
  | cons Y Ys ih =>
    intro s s' h
    unfold run_updates at h
    cases hu : update_state s Y with
    | none => rw [hu] at h; exact absurd h (by simp)
    | some s1 =>
      rw [hu] at h
      exact le_trans (update_state_best_value_mono s Y s1 hu) (ih s1 s' h)

/-- The updated restart flag is the old one or-ed with the test of the new
length against `length_min` (which `update_state` never modifies). -/
lemma update_state_restart_eq (s : TurboState) (Y : List ℚ) (m : ℚ) (s' : TurboState)
    (hm : pyMax Y = some m) (h : update_state s Y = some s') :
    s'.restart_triggered = (s.restart_triggered || decide (s'.length < s'.length_min)) := by
  rw [update_state_eq_some s Y m s' hm h]
  dsimp only
  split_ifs <;> simp_all

/-- `length_min` and `length_max` are never modified by `update_state`. -/
lemma update_state_min_max_eq (s : TurboState) (Y : List ℚ) (s' : TurboState)
    (h : update_state s Y = some s') :
    s'.length_min = s.length_min ∧ s'.length_max = s.length_max := by
  obtain ⟨m, hm⟩ := update_state_ne_none s Y s' h
  rw [update_state_eq_some s Y m s' hm h]
  dsimp only
  split_ifs <;> exact ⟨rfl, rfl⟩

/-- A raised restart flag survives one `update_state` step. -/
lemma update_state_restart_mono (s : TurboState) (Y : List ℚ) (s' : TurboState)
    (h : update_state s Y = some s') (hr : s.restart_triggered = true) :
    s'.restart_triggered = true := by
  obtain ⟨m, hm⟩ := update_state_ne_none s Y s' h
  rw [update_state_restart_eq s Y m s' hm h, hr, Bool.true_or]

/-- A raised restart flag survives any chain of `update_state` steps. -/
lemma run_updates_restart_mono (Ys : List (List ℚ)) :
    ∀ (s s' : TurboState), run_updates s Ys = some s' →
      s.restart_triggered = true → s'.restart_triggered = true := by
  induction Ys with
  | nil => intro s s' h hr; simp only [run_updates, Option.some.injEq] at h; rw [← h]; exact hr
  | cons Y Ys ih =>
    intro s s' h hr
    unfold run_updates at h
    cases hu : update_state s Y with
    | none => rw [hu] at h; exact absurd h (by simp)
    | some s1 =>
      rw [hu] at h
      exact ih s1 s' h (update_state_restart_mono s Y s1 hu hr)

/-- The three possible values of the region length after one step: doubled and
capped at `length_max`, halved, or unchanged. -/
lemma update_state_length_cases (s : TurboState) (Y : List ℚ) (m : ℚ) (s' : TurboState)
    (hm : pyMax Y = some m) (h : update_state s Y = some s') :
    s'.length = min (2 * s.length) s.length_max ∨ s'.length = s.length / 2 ∨
      s'.length = s.length := by
  rw [update_state_eq_some s Y m s' hm h]
  dsimp only
  split_ifs <;> simp

/-! ### C1 -/

/-- C1 (counterexample): from the reachable state `cexShrink` — length `1/80`
inside `[length_min, length_max] = [1/128, 8/5]`, three failures on record
against a tolerance of four — a non-improving batch `[-1]` makes
`update_state` halve the length to `1/160`, strictly below `length_min`,
refuting the claim that the width after `update_state` always stays within
`[length_min, length_max]`. -/
theorem update_state_length_below_min_cex :
    cexShrink.length_min ≤ cexShrink.length ∧ cexShrink.length ≤ cexShrink.length_max ∧
    (update_state cexShrink [-1]).map TurboState.length = some (1/160) ∧
    (1/160 : ℚ) < cexShrink.length_min := by decide

/-- C1 (amended): for a state whose length lies in `[length_min, length_max]`
with `0 ≤ length_min`, one `update_state` step keeps the length at most
`length_max`, but the lower bound only holds down to `length_min / 2`: a
shrink step can halve the length below `length_min`, and whenever the
resulting length is below `length_min` the restart flag is raised. -/
theorem update_state_length_bounds_amended (s : TurboState) (Y : List ℚ) (s' : TurboState)
    (h : update_state s Y = some s') (h0 : 0 ≤ s.length_min)
    (hlo : s.length_min ≤ s.length) (hhi : s.length ≤ s.length_max) :
    s'.length ≤ s'.length_max ∧ s'.length_min / 2 ≤ s'.length ∧
      (s'.length < s'.length_min → s'.restart_triggered = true) := by
  obtain ⟨m, hm⟩ := update_state_ne_none s Y s' h
  obtain ⟨hmin, hmax⟩ := update_state_min_max_eq s Y s' h
  have hc := update_state_length_cases s Y m s' hm h
  refine ⟨?_, ?_, ?_⟩
  · rw [hmax]
    rcases hc with h' | h' | h' <;> rw [h']
    · exact min_le_right _ _
    · linarith
    · linarith
  · rw [hmin]
    rcases hc with h' | h' | h' <;> rw [h']
    · rw [le_min_iff]
      constructor <;> linarith
    · linarith
    · linarith
  · intro hlt
    rw [update_state_restart_eq s Y m s' hm h]
    simp [hlt]

/-- C1 (witness): the amended bounds hold at the fresh two-dimensional state
after the improving batch `[1]`. -/
theorem update_state_length_bounds_amended_witness :
    update_state st2 [1] = some st2After ∧ (0 : ℚ) ≤ st2.length_min ∧
    st2.length_min ≤ st2.length ∧ st2.length ≤ st2.length_max ∧
    (st2After.length ≤ st2After.length_max ∧ st2After.length_min / 2 ≤ st2After.length ∧
      (st2After.length < st2After.length_min → st2After.restart_triggered = true)) :=
  ⟨by decide, by decide, by decide, by decide,
    update_state_length_bounds_amended st2 [1] st2After (by decide) (by decide) (by decide)
      (by decide)⟩

/-! ### C4 -/

/-- C4 (counterexample): from `cexStreak` — two successes on record against
`success_tolerance = 3` — the improving batch `[1]` does not leave the success
counter incremented: hitting the tolerance expands the region and resets the
counter to `0`, refuting the claim that an improvement always leaves
`success_counter` incremented. -/
theorem update_state_success_counter_cex :
    (cexStreak.best_value + (1/1000) * pyAbs cexStreak.best_value < 1) ∧
    cexStreak.success_counter + 1 = 3 ∧
    (update_state cexStreak [1]).map TurboState.success_counter = some 0 ∧
    (0 : ℕ) ≠ cexStreak.success_counter + 1 := by decide

/-- C4 (amended): on a batch with maximum `m`, an improvement
(`m > best_value + 1e-3 * fabs(best_value)`) resets `failure_counter` to `0`
and increments `success_counter` — except that reaching `success_tolerance`
immediately resets it to `0`; a non-improvement resets `success_counter` to
`0` and increments `failure_counter` — except that reaching
`failure_tolerance` immediately resets it to `0`.  (The hypothesis
`0 < success_tolerance` holds for every state the notebook constructs, where
it is `3`.) -/
theorem update_state_counter_rules_amended (s : TurboState) (Y : List ℚ) (m : ℚ)
    (s' : TurboState) (hm : pyMax Y = some m) (h : update_state s Y = some s')
    (hst : 0 < s.success_tolerance) :
    (s.best_value + (1/1000) * pyAbs s.best_value < m →
      s'.failure_counter = 0 ∧
      s'.success_counter =
        if s.success_counter + 1 = s.success_tolerance then 0 else s.success_counter + 1) ∧
    (¬ s.best_value + (1/1000) * pyAbs s.best_value < m →
      s'.success_counter = 0 ∧
      s'.failure_counter =
        if s.failure_counter + 1 = s.failure_tolerance then 0 else s.failure_counter + 1) := by
  rw [update_state_eq_some s Y m s' hm h]
  dsimp only
  constructor <;> intro himp <;> split_ifs <;> simp_all

/-- C4 (witness): the amended counter rules hold at the fresh two-dimensional
state with the improving batch `[1]`. -/
theorem update_state_counter_rules_amended_witness :
    pyMax [(1 : ℚ)] = some 1 ∧ update_state st2 [1] = some st2After ∧
    0 < st2.success_tolerance ∧
    ((st2.best_value + (1/1000) * pyAbs st2.best_value < 1 →
      st2After.failure_counter = 0 ∧
      st2After.success_counter =
        if st2.success_counter + 1 = st2.success_tolerance then 0
        else st2.success_counter + 1) ∧
    (¬ st2.best_value + (1/1000) * pyAbs st2.best_value < 1 →
      st2After.success_counter = 0 ∧
      st2After.failure_counter =
        if st2.failure_counter + 1 = st2.failure_tolerance then 0
        else st2.failure_counter + 1)) :=
  ⟨by decide, by decide, by decide,
    update_state_counter_rules_amended st2 [1] 1 st2After (by decide) (by decide) (by decide)⟩

/-! ### C5 -/

/-- C5 (confirmed): after `update_state` on a non-empty batch with maximum
`m`, the new `best_value` equals `max` of the previous `best_value` and `m`;
in particular `best_value` never decreases, across one call and across any
chain of calls. -/
theorem update_state_best_value_max :
    (∀ (s : TurboState) (Y : List ℚ) (m : ℚ) (s' : TurboState),
      pyMax Y = some m → update_state s Y = some s' →
        s'.best_value = max s.best_value m ∧ s.best_value ≤ s'.best_value) ∧
    (∀ (Ys : List (List ℚ)) (s s' : TurboState),
      run_updates s Ys = some s' → s.best_value ≤ s'.best_value) :=
  ⟨fun s Y m s' hm h =>
    ⟨update_state_best_value_eq s Y m s' hm h, update_state_best_value_mono s Y s' h⟩,
    fun Ys s s' h => run_updates_best_value_mono Ys s s' h⟩

/-- C5 (witness): the best-value rule at the fresh two-dimensional state with
batch `[1]`, and monotonicity across the singleton chain `[[1]]`. -/
theorem update_state_best_value_max_witness :
    (st2After.best_value = max st2.best_value 1 ∧ st2.best_value ≤ st2After.best_value) ∧
    st2.best_value ≤ st2After.best_value :=
  ⟨update_state_best_value_max.1 st2 [1] 1 st2After (by decide) (by decide),
    update_state_best_value_max.2 [[1]] st2 st2After (by decide)⟩

/-! ### C6 -/

/-- C6 (confirmed): `update_state` raises the restart flag exactly when the
(possibly just-halved) region length is below `length_min` — the new flag is
the old one or-ed with that test — and once the flag is raised no chain of
subsequent `update_state` calls ever clears it. -/
theorem update_state_restart_exact_and_sticky :
    (∀ (s : TurboState) (Y : List ℚ) (m : ℚ) (s' : TurboState),
      pyMax Y = some m → update_state s Y = some s' →
        s'.restart_triggered = (s.restart_triggered || decide (s'.length < s'.length_min))) ∧
    (∀ (Ys : List (List ℚ)) (s s' : TurboState),
      run_updates s Ys = some s' → s.restart_triggered = true →
        s'.restart_triggered = true) :=
  ⟨fun s Y m s' hm h => update_state_restart_eq s Y m s' hm h,
    fun Ys s s' h hr => run_updates_restart_mono Ys s s' h hr⟩

/-- C6 (witness): the exact flag rule at the fresh two-dimensional state with
batch `[1]`, and stickiness across the singleton chain `[[1]]` from a state
whose flag is already raised. -/
theorem update_state_restart_exact_and_sticky_witness :
    st2After.restart_triggered =
      (st2.restart_triggered || decide (st2After.length < st2After.length_min)) ∧
    st2RestartAfter.restart_triggered = true :=
  ⟨update_state_restart_exact_and_sticky.1 st2 [1] 1 st2After (by decide) (by decide),
    update_state_restart_exact_and_sticky.2 [[1]] st2Restart st2RestartAfter (by decide)
      (by decide)⟩

/-! ### C3 -/

/-- C3 (counterexample): on the input `X = [[2]]` (a coordinate outside
`[0, 1]`) the run fails with an `AssertionError` raised by the repository's
own `assert X.min() >= 0.0 and X.max() <= 1.0 ...` line in `generate_batch`,
refuting the claim that no exception ever originates from a check written in
this repository's code. -/
theorem generate_batch_repo_assertion_cex :
    generate_batch st2 ⟨[1, 1]⟩ [[2]] [0] libZero = .error .assertionError := by rfl

/-- C3 (amended): `generate_batch` does perform its own input validation: its
first `assert` rejects any `acqf` that is not a substring of `"ts"`, and its
second `assert` rejects any `X` whose largest coordinate exceeds `1`; in both
cases the run fails with an `AssertionError` originating in repository code. -/
theorem generate_batch_assertions_amended :
    (∀ (st : TurboState) (gp : GPModel) (X : List (List ℚ)) (Y : List ℚ)
        (lib : TorchLib) (nc : Option ℕ) (acqf : String),
      pyStrIn acqf "ts" = false →
        generate_batch st gp X Y lib acqf nc = .error .assertionError) ∧
    (∀ (st : TurboState) (gp : GPModel) (X : List (List ℚ)) (Y : List ℚ)
        (lib : TorchLib) (nc : Option ℕ) (xmin xmax : ℚ),
      pyMin X.flatten = some xmin → pyMax X.flatten = some xmax → 1 < xmax →
        generate_batch st gp X Y lib "ts" nc = .error .assertionError) := by
  constructor
  · intro st gp X Y lib nc acqf hsub
    simp [generate_batch, hsub]
  · intro st gp X Y lib nc xmin xmax hmin hmax hx
    have h1 : pyStrIn "ts" "ts" = true := by decide
    have hb : ¬ (xmax ≤ 1) := not_le.mpr hx
    simp [generate_batch, h1, hmin, hmax, hb]

/-- C3 (witness): both assertion failures occur at concrete inputs — the
rejected acquisition name `"ei"` and the out-of-range input `[[3/2]]`. -/
theorem generate_batch_assertions_amended_witness :
    pyStrIn "ei" "ts" = false ∧
    generate_batch st2 ⟨[1]⟩ [[1/2]] [0] libZero "ei" = .error .assertionError ∧
    pyMin [[(3/2 : ℚ)]].flatten = some (3/2) ∧ pyMax [[(3/2 : ℚ)]].flatten = some (3/2) ∧
    (1 : ℚ) < 3/2 ∧
    generate_batch st2 ⟨[1]⟩ [[3/2]] [0] libZero "ts" = .error .assertionError :=
  ⟨by decide,
    generate_batch_assertions_amended.1 st2 ⟨[1]⟩ [[1/2]] [0] libZero none "ei" (by decide),
    by decide, by decide, by decide,
    generate_batch_assertions_amended.2 st2 ⟨[1]⟩ [[3/2]] [0] libZero none (3/2) (3/2)
      (by decide) (by decide) (by decide)⟩

/-! ### C10 -/

/-- C10 (confirmed): `assert acqf in ("ts")` tests substring membership of the
string `"ts"`, so any `acqf` that is a substring of `"ts"` but not equal to it
(such as `"t"`, `"s"` or `""`) passes the assertion, skips the
Thompson-sampling branch, and the function then fails at `return X_next` with
an unbound local, for every state, model, in-range `X` and non-empty `Y`. -/
theorem generate_batch_acqf_substring_unbound (st : TurboState) (gp : GPModel)
    (X : List (List ℚ)) (Y : List ℚ) (lib : TorchLib) (nc : Option ℕ) (acqf : String)
    (xmin xmax : ℚ)
    (hsub : pyStrIn acqf "ts" = true) (hne : acqf ≠ "ts")
    (hmin : pyMin X.flatten = some xmin) (hmax : pyMax X.flatten = some xmax)
    (h0 : 0 ≤ xmin) (h1 : xmax ≤ 1)
    (hY : Y.isEmpty = false) (hidx : pyArgmax Y < X.length) :
    generate_batch st gp X Y lib acqf nc = .error .unboundLocal := by
  have h4 : ¬ (X.length ≤ pyArgmax Y) := by omega
  have h5 : (acqf == "ts") = false := beq_eq_false_iff_ne.mpr hne
  simp [generate_batch, hsub, hmin, hmax, h0, h1, hY, h4, h5, torchIsfinite]

/-- C10 (witness): with `acqf = "t"` on an in-range input, the assertion
passes and the run ends in the unbound-local failure at `return X_next`. -/
theorem generate_batch_acqf_substring_unbound_witness :
    pyStrIn "t" "ts" = true ∧ "t" ≠ "ts" ∧
    generate_batch st2 ⟨[1]⟩ [[1/2]] [0] libZero "t" = .error .unboundLocal :=
  ⟨by decide, by decide,
    generate_batch_acqf_substring_unbound st2 ⟨[1]⟩ [[1/2]] [0] libZero none "t" (1/2) (1/2)
      (by decide) (by decide) (by decide) (by decide) (by decide) (by decide) (by decide)
      (by decide)⟩

/-! ### C8 -/

/-- C8 (confirmed): with the library randomness made explicit, a fixed RNG
state (`TorchLib` oracle) makes two runs of `generate_batch` on the same
state, model, `X` and `Y` produce the same posterior sample over the candidate
points and hence the same next query point. -/
theorem generate_batch_deterministic (st : TurboState) (gp : GPModel) (X : List (List ℚ))
    (Y : List ℚ) (lib lib' : TorchLib) (nc : Option ℕ) (n : ℕ) (h : lib = lib') :
    posteriorSample st gp X Y lib n = posteriorSample st gp X Y lib' n ∧
    generate_batch st gp X Y lib "ts" nc = generate_batch st gp X Y lib' "ts" nc := by
  subst h
  exact ⟨rfl, rfl⟩

/-- C8 (witness): determinism instantiated at the zero oracle. -/
theorem generate_batch_deterministic_witness :
    posteriorSample st2 ⟨[1]⟩ [[1/2]] [0] libZero 2 =
      posteriorSample st2 ⟨[1]⟩ [[1/2]] [0] libZero 2 ∧
    generate_batch st2 ⟨[1]⟩ [[1/2]] [0] libZero "ts" none =
      generate_batch st2 ⟨[1]⟩ [[1/2]] [0] libZero "ts" none :=
  generate_batch_deterministic st2 ⟨[1]⟩ [[1/2]] [0] libZero libZero none 2 rfl

/-! ### C2 -/

/-- The pair the driver-loop body builds in the counterexample run: first data
file `[0]`, second data file `[5]`, no CSV points. -/
def driverPairW : TurboState × Except PyError (List ℚ) :=
  (mkTurboState 2 1 0,
    next_query_via_TurBO ([[1/2, 1/2]] ++ [] ++ []) ([0] ++ [5] ++ [])
      (mkTurboState 2 1 0) libZero)

/-- C2 (counterexample): with first data file outputs `[0]`, second data file
outputs `[5]` and no CSV points, the driver initialises `best_value` to `0`,
while the maximum over all loaded data is `5`: the state is built from
`torch.max(train_y)` before the other two sources are concatenated, refuting
the claim that `best_value` is the maximum over all three data sources. -/
theorem driver_best_value_ignores_later_data_cex :
    (driver_run 2 [[1/2, 1/2]] [] [] [0] [5] [] libZero).map (fun p => p.1.best_value) =
      some 0 ∧
    pyMax ([0] ++ [5] ++ ([] : List ℚ)) = some 5 ∧ (0 : ℚ) ≠ 5 := by
  refine ⟨rfl, by decide, by decide⟩

/-- C2 (amended): for every function index, the driver reinitialises the
`TurboState` with the dataclass defaults and `best_value` equal to the maximum
of the outputs of the *first* initial-data file only; the second data file and
the CSV-derived points are concatenated after the state is constructed and do
not contribute to the initial `best_value`. -/
theorem driver_best_value_from_first_file_amended (dim : ℕ)
    (tx tx2 xn : List (List ℚ)) (ty ty2 yn : List ℚ) (lib : TorchLib) (m : ℚ)
    (p : TurboState × Except PyError (List ℚ))
    (hm : pyMax ty = some m)
    (h : driver_run dim tx tx2 xn ty ty2 yn lib = some p) :
    p.1 = mkTurboState dim 1 m ∧ p.1.best_value = m := by
  unfold driver_run at h
  rw [hm] at h
  simp only [Option.some.injEq] at h
  rw [← h]
  exact ⟨rfl, rfl⟩

/-- C2 (witness): the amended initialisation rule at the counterexample's
concrete data. -/
theorem driver_best_value_from_first_file_amended_witness :
    pyMax [(0 : ℚ)] = some 0 ∧
    driverPairW.1 = mkTurboState 2 1 0 ∧ driverPairW.1.best_value = 0 :=
  ⟨by decide,
    (driver_best_value_from_first_file_amended 2 [[1/2, 1/2]] [] [] [0] [5] [] libZero 0
      driverPairW (by decide) rfl).1,
    (driver_best_value_from_first_file_amended 2 [[1/2, 1/2]] [] [] [0] [5] [] libZero 0
      driverPairW (by decide) rfl).2⟩

/-! ### Helper lemmas about `pyArgmax`, `getD` and the candidate matrix -/

/-- The scan of `argmaxAux` returns an index below `n` whenever the running
best index is below `n` and the remaining indices stay below `n`. -/
lemma argmaxAux_lt (xs : List ℚ) :
    ∀ (i best : ℕ) (bv : ℚ) (n : ℕ), best < n → i + xs.length ≤ n →
      argmaxAux xs i best bv < n := by
  induction xs with
  | nil => intro i best bv n hb _; simpa [argmaxAux] using hb
  | cons x xs ih =>
    intro i best bv n hb hn
    simp only [List.length_cons] at hn
    simp only [argmaxAux]
    split
    · exact ih (i + 1) i x n (by omega) (by omega)
    · exact ih (i + 1) best bv n hb (by omega)

/-- `pyArgmax` of a non-empty list is a valid index. -/
lemma pyArgmax_lt (l : List ℚ) (h : l ≠ []) : pyArgmax l < l.length := by
  cases l with
  | nil => exact absurd rfl h
  | cons x xs =>
    simp only [pyArgmax, List.length_cons]
    exact argmaxAux_lt xs 1 0 x (xs.length + 1) (by omega) (by omega)

/-- When no remaining element beats the running best value, the scan keeps the
running best index. -/
lemma argmaxAux_of_no_improve (xs : List ℚ) :
    ∀ (i best : ℕ) (bv : ℚ), (∀ x ∈ xs, ¬ bv < x) → argmaxAux xs i best bv = best := by
  induction xs with
  | nil => intro i best bv _; rfl
  | cons x xs ih =>
    intro i best bv h
    simp only [argmaxAux]
    rw [if_neg (h x (by simp))]
    exact ih (i + 1) best bv fun y hy => h y (by simp [hy])

/-- `pyArgmax` of a constant list is `0` (torch's first-maximal-index rule). -/
lemma pyArgmax_const_zero (l : List ℚ) (c : ℚ) (h : ∀ x ∈ l, x = c) : pyArgmax l = 0 := by
  cases l with
  | nil => rfl
  | cons x xs =>
    simp only [pyArgmax]
    refine argmaxAux_of_no_improve xs 1 0 x fun y hy => ?_
    rw [h y (by simp [hy]), h x (by simp)]
    exact lt_irrefl c

/-- `List.getD` returns a member of the list or the default. -/
lemma getD_mem_or {α : Type} (l : List α) (n : ℕ) (d : α) :
    l.getD n d ∈ l ∨ l.getD n d = d := by
  rw [List.getD_eq_getElem?_getD]
  by_cases h : n < l.length
  · rw [List.getElem?_eq_getElem h]
    exact Or.inl (by simp)
  · rw [List.getElem?_eq_none (by omega)]
    exact Or.inr rfl

/-- `clamp01` lands in `[0, 1]`. -/
lemma clamp01_bounds (x : ℚ) : 0 ≤ clamp01 x ∧ clamp01 x ≤ 1 :=
  ⟨le_max_left 0 _, max_le (by norm_num) (min_le_right x 1)⟩

/-- A point of the segment between two values of `[0, 1]`, at parameter
`u ∈ [0, 1]`, stays in `[0, 1]`. -/
lemma convex_combo_bounds (a b u : ℚ) (ha0 : 0 ≤ a) (ha1 : a ≤ 1) (hb0 : 0 ≤ b)
    (hb1 : b ≤ 1) (hu0 : 0 ≤ u) (hu1 : u ≤ 1) :
    0 ≤ a + (b - a) * u ∧ a + (b - a) * u ≤ 1 := by
  constructor
  · nlinarith [mul_nonneg ha0 (sub_nonneg.mpr hu1), mul_nonneg hb0 hu0]
  · nlinarith [mul_nonneg (sub_nonneg.mpr ha1) (sub_nonneg.mpr hu1),
      mul_nonneg (sub_nonneg.mpr hb1) hu0]

/-- Reading any position of a row with entries in `[0, 1]` (default `0`)
stays in `[0, 1]`. -/
lemma unitRow_getD_bounds (row : List ℚ) (hrow : ∀ c ∈ row, 0 ≤ c ∧ c ≤ 1) (j : ℕ) :
    0 ≤ row.getD j 0 ∧ row.getD j 0 ≤ 1 := by
  rcases getD_mem_or row j 0 with h | h
  · exact hrow _ h
  · rw [h]; norm_num

/-- The trust-region centre has coordinates in `[0, 1]` whenever all rows of
`X` do. -/
lemma x_center_getD_bounds (X : List (List ℚ)) (Y : List ℚ)
    (hX : ∀ row ∈ X, ∀ c ∈ row, 0 ≤ c ∧ c ≤ 1) (j : ℕ) :
    0 ≤ (x_center X Y).getD j 0 ∧ (x_center X Y).getD j 0 ≤ 1 := by
  unfold x_center
  rcases getD_mem_or X (pyArgmax Y) [] with h | h
  · exact unitRow_getD_bounds _ (hX _ h) j
  · rw [h]
    norm_num [List.getD_eq_getElem?_getD]

/-- Perturbed candidate coordinates stay in `[0, 1]`: they interpolate between
the two clamped trust-region bounds at a Sobol parameter in `[0, 1]`. -/
lemma pert_bounds (st : TurboState) (gp : GPModel) (X : List (List ℚ)) (Y : List ℚ)
    (lib : TorchLib) (i j : ℕ) (hs : 0 ≤ lib.sobol i j ∧ lib.sobol i j ≤ 1) :
    0 ≤ pert st gp X Y lib i j ∧ pert st gp X Y lib i j ≤ 1 := by
  unfold pert tr_lb tr_ub
  exact convex_combo_bounds _ _ _ (clamp01_bounds _).1 (clamp01_bounds _).2
    (clamp01_bounds _).1 (clamp01_bounds _).2 hs.1 hs.2

/-- Every candidate entry is either a perturbation or a centre coordinate, so
it stays in `[0, 1]`. -/
lemma candEntry_bounds (st : TurboState) (gp : GPModel) (X : List (List ℚ)) (Y : List ℚ)
    (lib : TorchLib) (n i j : ℕ)
    (hX : ∀ row ∈ X, ∀ c ∈ row, 0 ≤ c ∧ c ≤ 1)
    (hs : ∀ i j, 0 ≤ lib.sobol i j ∧ lib.sobol i j ≤ 1) :
    0 ≤ candEntry st gp X Y lib n i j ∧ candEntry st gp X Y lib n i j ≤ 1 := by
  unfold candEntry
  split_ifs
  · exact pert_bounds st gp X Y lib i j (hs i j)
  · exact x_center_getD_bounds X Y hX j

/-- Every entry of every candidate row lies in `[0, 1]`. -/
lemma candidates_mem_bounds (st : TurboState) (gp : GPModel) (X : List (List ℚ))
    (Y : List ℚ) (lib : TorchLib) (n : ℕ)
    (hX : ∀ row ∈ X, ∀ c ∈ row, 0 ≤ c ∧ c ≤ 1)
    (hs : ∀ i j, 0 ≤ lib.sobol i j ∧ lib.sobol i j ≤ 1) :
    ∀ row ∈ candidates st gp X Y lib n, ∀ c ∈ row, 0 ≤ c ∧ c ≤ 1 := by
  intro row hrow c hc
  simp only [candidates, List.mem_map] at hrow
  obtain ⟨i, _, rfl⟩ := hrow
  simp only [candRow, List.mem_map] at hc
  obtain ⟨j, _, rfl⟩ := hc
  exact candEntry_bounds st gp X Y lib n i j hX hs

/-- The candidate matrix has `n` rows. -/
lemma candidates_length (st : TurboState) (gp : GPModel) (X : List (List ℚ)) (Y : List ℚ)
    (lib : TorchLib) (n : ℕ) : (candidates st gp X Y lib n).length = n := by
  simp [candidates]

/-- The posterior sample has one entry per candidate. -/
lemma posteriorSample_length (st : TurboState) (gp : GPModel) (X : List (List ℚ))
    (Y : List ℚ) (lib : TorchLib) (n : ℕ) :
    (posteriorSample st gp X Y lib n).length = n := by
  simp [posteriorSample]

/-- With at least one candidate, the chosen point is a genuine candidate row,
hence has `dim = X.shape[-1]` coordinates. -/
lemma chooseCandidate_length (st : TurboState) (gp : GPModel) (X : List (List ℚ))
    (Y : List ℚ) (lib : TorchLib) (n : ℕ) (hn : 0 < n) :
    (chooseCandidate st gp X Y lib n).length = (X.headD []).length := by
  unfold chooseCandidate
  have hne : posteriorSample st gp X Y lib n ≠ [] := by
    intro hc
    have := posteriorSample_length st gp X Y lib n
    rw [hc] at this
    simp at this
    omega
  have hidx : pyArgmax (posteriorSample st gp X Y lib n) < n := by
    have := pyArgmax_lt _ hne
    rwa [posteriorSample_length] at this
  have hlt : pyArgmax (posteriorSample st gp X Y lib n) <
      (candidates st gp X Y lib n).length := by
    rwa [candidates_length]
  rw [List.getD_eq_getElem?_getD, List.getElem?_eq_getElem hlt]
  simp [candidates, candRow]

/-- With a posterior-sample oracle that is identically zero, the argmax is the
first candidate, so the chosen point is candidate row `0`. -/
lemma chooseCandidate_zero_gpSample (st : TurboState) (gp : GPModel) (X : List (List ℚ))
    (Y : List ℚ) (lib : TorchLib) (n : ℕ) (hn : 0 < n)
    (hzero : ∀ c i, lib.gpSample gp c i = 0) :
    chooseCandidate st gp X Y lib n = candRow st gp X Y lib n 0 := by
  unfold chooseCandidate
  have hconst : ∀ x ∈ posteriorSample st gp X Y lib n, x = 0 := by
    intro x hx
    simp only [posteriorSample, List.mem_map] at hx
    obtain ⟨i, _, rfl⟩ := hx
    exact hzero _ i
  rw [pyArgmax_const_zero _ 0 hconst]
  have h0 : 0 < (candidates st gp X Y lib n).length := by rwa [candidates_length]
  rw [List.getD_eq_getElem?_getD, List.getElem?_eq_getElem h0]
  simp [candidates]

/-- A successful `generate_batch` run returns exactly the chosen Thompson
candidate at the effective candidate count. -/
lemma generate_batch_ok (st : TurboState) (gp : GPModel) (X : List (List ℚ)) (Y : List ℚ)
    (lib : TorchLib) (acqf : String) (nc : Option ℕ) (out : List ℚ)
    (h : generate_batch st gp X Y lib acqf nc = .ok out) :
    out = chooseCandidate st gp X Y lib (nc.getD (nCandidates ((X.headD []).length))) := by
  unfold generate_batch at h
  split at h
  · exact absurd h (by simp)
  · split at h
    · split at h
      · exact absurd h (by simp)
      · split at h
        · exact absurd h (by simp)
        · split at h
          · exact absurd h (by simp)
          · split at h
            · simp only [Except.ok.injEq] at h
              exact h.symm
            · exact absurd h (by simp)
    · exact absurd h (by simp)

/-! ### C7 -/

/-- C7 (confirmed): `next_query_via_TurBO` performs zero hyper-parameter
training iterations — it calls `generate_batch` on exactly the freshly
constructed model, whose kernel hyper-parameters are still the constructor's
initial values — and, with the batch size fixed at `1`, a successful run
returns exactly one proposed query point (a single vector with one coordinate
per input dimension). -/
theorem next_query_fresh_model_single_point (tx : List (List ℚ)) (ty : List ℚ)
    (st : TurboState) (lib : TorchLib) (out : List ℚ)
    (h : next_query_via_TurBO tx ty st lib = .ok out) :
    next_query_via_TurBO tx ty st lib =
      generate_batch st (ExactGPModel.mkFresh tx ty) tx ty lib ∧
    (ExactGPModel.mkFresh tx ty).lengthscale =
      List.replicate ((tx.headD []).length) gpytorchInitLengthscale ∧
    out.length = (tx.headD []).length := by
  refine ⟨rfl, rfl, ?_⟩
  have h' : generate_batch st (ExactGPModel.mkFresh tx ty) tx ty lib = .ok out := h
  rw [generate_batch_ok st (ExactGPModel.mkFresh tx ty) tx ty lib "ts" none out h']
  exact chooseCandidate_length st _ tx ty lib _ (by simp [nCandidates])

/-- The concrete successful run backing the C7 and C9 witnesses: on the
single in-range observation `[[1/2, 1/2]] ↦ [0]` with the zero oracle, the
posterior sample is identically zero, the first candidate row is chosen, and
both of its coordinates are the perturbation value `1/10`. -/
lemma next_query_witness_run :
    next_query_via_TurBO [[1/2, 1/2]] [0] st2 libZero = .ok [1/10, 1/10] := by
  have h1 : next_query_via_TurBO [[1/2, 1/2]] [0] st2 libZero =
      .ok (chooseCandidate st2 (ExactGPModel.mkFresh [[1/2, 1/2]] [0]) [[1/2, 1/2]] [0]
        libZero (nCandidates 2)) := rfl
  rw [h1, chooseCandidate_zero_gpSample st2 _ [[1/2, 1/2]] [0] libZero (nCandidates 2)
    (by unfold nCandidates; omega) (fun c i => rfl)]
  have h2 : candRow st2 (ExactGPModel.mkFresh [[1/2, 1/2]] [0]) [[1/2, 1/2]] [0] libZero
      (nCandidates 2) 0 = [1/10, 1/10] := by decide
  rw [h2]

/-- C7 (witness): the concrete successful run above instantiates the theorem:
the fresh model is used, its lengthscales are the initial ones, and the
returned point has two coordinates for the two input dimensions. -/
theorem next_query_fresh_model_single_point_witness :
    next_query_via_TurBO [[1/2, 1/2]] [0] st2 libZero = .ok [1/10, 1/10] ∧
    (next_query_via_TurBO [[1/2, 1/2]] [0] st2 libZero =
      generate_batch st2 (ExactGPModel.mkFresh [[1/2, 1/2]] [0]) [[1/2, 1/2]] [0] libZero ∧
    (ExactGPModel.mkFresh [[1/2, 1/2]] [0]).lengthscale =
      List.replicate (([[(1/2 : ℚ), 1/2]].headD []).length) gpytorchInitLengthscale ∧
    ([(1/10 : ℚ), 1/10]).length = (([[(1/2 : ℚ), 1/2]].headD []).length)) :=
  ⟨next_query_witness_run,
    next_query_fresh_model_single_point [[1/2, 1/2]] [0] st2 libZero [1/10, 1/10]
      next_query_witness_run⟩

/-! ### C9 -/

/-- The chosen candidate is a row of the candidate matrix or the out-of-range
default `[]`. -/
lemma chooseCandidate_mem_or (st : TurboState) (gp : GPModel) (X : List (List ℚ))
    (Y : List ℚ) (lib : TorchLib) (n : ℕ) :
    chooseCandidate st gp X Y lib n ∈ candidates st gp X Y lib n ∨
      chooseCandidate st gp X Y lib n = [] :=
  getD_mem_or _ _ _

/-- C9 (confirmed): when every coordinate of `X` lies in `[0, 1]` and the
Sobol draws lie in `[0, 1]`, every coordinate of a point returned by
`generate_batch` lies in `[0, 1]`: the trust-region bounds are clamped to
`[0, 1]`, and each candidate coordinate is either a clamped interpolation
between them or a coordinate of the in-range centre point. -/
theorem generate_batch_output_in_unit_cube (st : TurboState) (gp : GPModel)
    (X : List (List ℚ)) (Y : List ℚ) (lib : TorchLib) (acqf : String) (nc : Option ℕ)
    (out : List ℚ)
    (hX : ∀ row ∈ X, ∀ c ∈ row, 0 ≤ c ∧ c ≤ 1)
    (hs : ∀ i j, 0 ≤ lib.sobol i j ∧ lib.sobol i j ≤ 1)
    (h : generate_batch st gp X Y lib acqf nc = .ok out) :
    ∀ c ∈ out, 0 ≤ c ∧ c ≤ 1 := by
  rw [generate_batch_ok st gp X Y lib acqf nc out h]
  rcases chooseCandidate_mem_or st gp X Y lib (nc.getD (nCandidates ((X.headD []).length)))
    with hmem | hnil
  · exact candidates_mem_bounds st gp X Y lib _ hX hs _ hmem
  · rw [hnil]
    intro c hc
    simp at hc

/-- C9 (witness): a concrete successful run with one candidate: all
hypotheses hold at `X = [[1/2, 1/2]]` with the zero oracle, and the returned
point `[1/10, 1/10]` indeed lies in the unit square. -/
theorem generate_batch_output_in_unit_cube_witness :
    (∀ row ∈ [[(1/2 : ℚ), 1/2]], ∀ c ∈ row, 0 ≤ c ∧ c ≤ 1) ∧
    (∀ i j : ℕ, 0 ≤ libZero.sobol i j ∧ libZero.sobol i j ≤ 1) ∧
    generate_batch st2 ⟨[1, 1]⟩ [[1/2, 1/2]] [0] libZero "ts" (some 1) =
      .ok [1/10, 1/10] ∧
    (∀ c ∈ [(1/10 : ℚ), 1/10], 0 ≤ c ∧ c ≤ 1) := by
  have hs : ∀ i j : ℕ, 0 ≤ libZero.sobol i j ∧ libZero.sobol i j ≤ 1 := by
    intro i j
    constructor <;> norm_num [libZero]
  have hrun : generate_batch st2 ⟨[1, 1]⟩ [[1/2, 1/2]] [0] libZero "ts" (some 1) =
      .ok [1/10, 1/10] := by rfl
  exact ⟨by decide, hs, hrun,
    generate_batch_output_in_unit_cube st2 ⟨[1, 1]⟩ [[1/2, 1/2]] [0] libZero "ts" (some 1)
      [1/10, 1/10] (by decide) hs hrun⟩
